import Mathlib

/-!
Verification of the RNS V1 badge lockers blueprint
(`src/rns_v1_badge_lockers.rs`).

The blueprint `V1AuthRelinquishment` holds two vaults (for V1 admin badges
and V1 upgrade badges), pinned at instantiation to two resource addresses.
`lock_admin_badges` / `lock_upgrade_badges` assert that the incoming bucket
carries exactly the expected resource, merge it into the matching vault and
emit one event; `get_lock_status` reports both vault amounts and both
expected resource addresses.

Embedding choices: resource addresses are opaque identifiers (`Nat`);
Scrypto `Decimal` amounts are rationals (`Rat`); time is seconds since the
Unix epoch (`Nat`).  The Rust methods panic (via `assert_eq!`) on a
resource mismatch, which aborts the whole call with no state change; they
are embedded as `Option`-returning functions, `none` standing for the
aborted call in which the bucket is not consumed and no event is emitted.
-/

namespace RnsV1BadgeLockers

/-- An opaque ledger resource address. -/
abbrev ResourceAddress := Nat

/-- A Scrypto `Decimal` amount.  `Decimal` is a signed 192-bit count of
`10 ^ -18` subunits; it is embedded as an unbounded `Int` count of subunits
(the spec places no upper bound on amounts, and addition of subunit counts
is exact). -/
abbrev Decimal := Int

/-- A bucket: a transient container holding `amount` tokens of `resource`. -/
structure Bucket where
  resource : ResourceAddress
  amount : Decimal
deriving DecidableEq

/-- A vault: persistent token storage pinned to one resource. -/
structure Vault where
  resource : ResourceAddress
  amount : Decimal
deriving DecidableEq

/-- `Vault::new(resource)`: an empty vault pinned to `resource`. -/
def Vault.new (r : ResourceAddress) : Vault :=
  { resource := r, amount := 0 }

/-- `Vault::put(bucket)`: merge the bucket's tokens into the vault.  In the
blueprint both call sites are guarded by an `assert_eq!` that the bucket's
resource equals the vault's pinned resource. -/
def Vault.put (v : Vault) (b : Bucket) : Vault :=
  { v with amount := v.amount + b.amount }

/-- The `V1LockStatus` struct returned by `get_lock_status`. -/
structure V1LockStatus where
  admin_badges_locked : Decimal
  upgrade_badges_locked : Decimal
  admin_badge_resource : ResourceAddress
  upgrade_badge_resource : ResourceAddress
deriving DecidableEq

/-- The `V1AdminBadgesLockedEvent` struct. -/
structure V1AdminBadgesLockedEvent where
  badges_locked : Decimal
  total_locked_now : Decimal
  timestamp : Nat
deriving DecidableEq

/-- The `V1UpgradeBadgeLockedEvent` struct. -/
structure V1UpgradeBadgeLockedEvent where
  badges_locked : Decimal
  total_locked_now : Decimal
  timestamp : Nat
deriving DecidableEq

/-- The component state of the `V1AuthRelinquishment` blueprint. -/
structure V1AuthRelinquishment where
  v1_admin_badges_vault : Vault
  v1_upgrade_badges_vault : Vault
  v1_admin_badge_resource : ResourceAddress
  v1_upgrade_badge_resource : ResourceAddress
deriving DecidableEq

/-- Modelled from the spec: `Clock::current_time_rounded_to_minutes()` is
Scrypto host/library code not present in this repository; per the spec it
returns the current ledger time truncated to whole-minute granularity.
`t` is the host clock in seconds since the Unix epoch. -/
def current_time_rounded_to_minutes (t : Nat) : Nat :=
  t / 60 * 60

/-- `V1AuthRelinquishment::instantiate`: two fresh vaults pinned to the two
supplied resource addresses, which are also recorded in the state. -/
def instantiate (v1_admin_badge_resource v1_upgrade_badge_resource : ResourceAddress) :
    V1AuthRelinquishment :=
  { v1_admin_badges_vault := Vault.new v1_admin_badge_resource
    v1_upgrade_badges_vault := Vault.new v1_upgrade_badge_resource
    v1_admin_badge_resource := v1_admin_badge_resource
    v1_upgrade_badge_resource := v1_upgrade_badge_resource }

/-- `lock_admin_badges`: asserts the bucket's resource equals
`v1_admin_badge_resource` (panic, i.e. `none`, otherwise), merges the bucket
into `v1_admin_badges_vault` and emits one `V1AdminBadgesLockedEvent`.
`t` is the host clock at the time of the call. -/
def lock_admin_badges (s : V1AuthRelinquishment) (v1_admin_badges : Bucket) (t : Nat) :
    Option (V1AuthRelinquishment × V1AdminBadgesLockedEvent) :=
  if v1_admin_badges.resource = s.v1_admin_badge_resource then
    let locked_count := v1_admin_badges.amount
    let s2 := { s with v1_admin_badges_vault := s.v1_admin_badges_vault.put v1_admin_badges }
    some (s2,
      { badges_locked := locked_count
        total_locked_now := s2.v1_admin_badges_vault.amount
        timestamp := current_time_rounded_to_minutes t })
  else
    none

/-- `lock_upgrade_badges`: asserts the bucket's resource equals
`v1_upgrade_badge_resource` (panic, i.e. `none`, otherwise), merges the
bucket into `v1_upgrade_badges_vault` and emits one
`V1UpgradeBadgeLockedEvent`.  `t` is the host clock at the time of the call. -/
def lock_upgrade_badges (s : V1AuthRelinquishment) (v1_upgrade_badges : Bucket) (t : Nat) :
    Option (V1AuthRelinquishment × V1UpgradeBadgeLockedEvent) :=
  if v1_upgrade_badges.resource = s.v1_upgrade_badge_resource then
    let locked_count := v1_upgrade_badges.amount
    let s2 := { s with v1_upgrade_badges_vault := s.v1_upgrade_badges_vault.put v1_upgrade_badges }
    some (s2,
      { badges_locked := locked_count
        total_locked_now := s2.v1_upgrade_badges_vault.amount
        timestamp := current_time_rounded_to_minutes t })
  else
    none

/-- `get_lock_status`: read-only snapshot of both vault amounts and both
expected resource addresses. -/
def get_lock_status (s : V1AuthRelinquishment) : V1LockStatus :=
  { admin_badges_locked := s.v1_admin_badges_vault.amount
    upgrade_badges_locked := s.v1_upgrade_badges_vault.amount
    admin_badge_resource := s.v1_admin_badge_resource
    upgrade_badge_resource := s.v1_upgrade_badge_resource }

/-- One invocation of a public method of the component. -/
inductive Op where
  | lockAdmin (b : Bucket) (t : Nat)
  | lockUpgrade (b : Bucket) (t : Nat)
  | getStatus
deriving DecidableEq

/-- The state after one invocation.  A panicking call (resource mismatch)
rolls back completely, leaving the state unchanged; `get_lock_status` is
read-only. -/
def step (s : V1AuthRelinquishment) : Op → V1AuthRelinquishment
  | .lockAdmin b t =>
    match lock_admin_badges s b t with
    | some (s2, _) => s2
    | none => s
  | .lockUpgrade b t =>
    match lock_upgrade_badges s b t with
    | some (s2, _) => s2
    | none => s
  | .getStatus => s

/-- The state after a finite sequence of invocations. -/
def run (s : V1AuthRelinquishment) (ops : List Op) : V1AuthRelinquishment :=
  ops.foldl step s

/-- The amount an invocation adds to the admin vault, given the expected
admin badge resource `ra`: the bucket amount for a matching `lockAdmin`,
zero otherwise. -/
def adminLocked (ra : ResourceAddress) : Op → Decimal
  | .lockAdmin b _ => if b.resource = ra then b.amount else 0
  | _ => 0

/-- The amount an invocation adds to the upgrade vault, given the expected
upgrade badge resource `rb`. -/
def upgradeLocked (rb : ResourceAddress) : Op → Decimal
  | .lockUpgrade b _ => if b.resource = rb then b.amount else 0
  | _ => 0

/-- Whether every bucket appearing in an invocation has a non-negative
amount (real buckets always do: the ledger has no negative balances). -/
def opBucketNonneg : Op → Bool
  | .lockAdmin b _ => decide (0 ≤ b.amount)
  | .lockUpgrade b _ => decide (0 ≤ b.amount)
  | .getStatus => true

theorem step_lockAdmin (s : V1AuthRelinquishment) (b : Bucket) (t : Nat) :
    step s (Op.lockAdmin b t)
      = if b.resource = s.v1_admin_badge_resource
        then { s with v1_admin_badges_vault := s.v1_admin_badges_vault.put b }
        else s := by
  by_cases h : b.resource = s.v1_admin_badge_resource <;>
    simp [step, lock_admin_badges, h]

theorem step_lockUpgrade (s : V1AuthRelinquishment) (b : Bucket) (t : Nat) :
    step s (Op.lockUpgrade b t)
      = if b.resource = s.v1_upgrade_badge_resource
        then { s with v1_upgrade_badges_vault := s.v1_upgrade_badges_vault.put b }
        else s := by
  by_cases h : b.resource = s.v1_upgrade_badge_resource <;>
    simp [step, lock_upgrade_badges, h]

theorem step_admin_badge_resource (s : V1AuthRelinquishment) (op : Op) :
    (step s op).v1_admin_badge_resource = s.v1_admin_badge_resource := by
  cases op with
  | lockAdmin b t => rw [step_lockAdmin]; split <;> rfl
  | lockUpgrade b t => rw [step_lockUpgrade]; split <;> rfl
  | getStatus => rfl

theorem step_upgrade_badge_resource (s : V1AuthRelinquishment) (op : Op) :
    (step s op).v1_upgrade_badge_resource = s.v1_upgrade_badge_resource := by
  cases op with
  | lockAdmin b t => rw [step_lockAdmin]; split <;> rfl
  | lockUpgrade b t => rw [step_lockUpgrade]; split <;> rfl
  | getStatus => rfl

theorem step_admin_vault_resource (s : V1AuthRelinquishment) (op : Op) :
    (step s op).v1_admin_badges_vault.resource = s.v1_admin_badges_vault.resource := by
  cases op with
  | lockAdmin b t => rw [step_lockAdmin]; split <;> rfl
  | lockUpgrade b t => rw [step_lockUpgrade]; split <;> rfl
  | getStatus => rfl

theorem step_upgrade_vault_resource (s : V1AuthRelinquishment) (op : Op) :
    (step s op).v1_upgrade_badges_vault.resource = s.v1_upgrade_badges_vault.resource := by
  cases op with
  | lockAdmin b t => rw [step_lockAdmin]; split <;> rfl
  | lockUpgrade b t => rw [step_lockUpgrade]; split <;> rfl
  | getStatus => rfl

theorem step_admin_vault_amount (s : V1AuthRelinquishment) (op : Op) :
    (step s op).v1_admin_badges_vault.amount
      = s.v1_admin_badges_vault.amount + adminLocked s.v1_admin_badge_resource op := by
  cases op with
  | lockAdmin b t =>
    rw [step_lockAdmin]
    by_cases h : b.resource = s.v1_admin_badge_resource <;>
      simp [h, Vault.put, adminLocked]
  | lockUpgrade b t =>
    rw [step_lockUpgrade]
    by_cases h : b.resource = s.v1_upgrade_badge_resource <;>
      simp [h, adminLocked]
  | getStatus => simp [step, adminLocked]

theorem step_upgrade_vault_amount (s : V1AuthRelinquishment) (op : Op) :
    (step s op).v1_upgrade_badges_vault.amount
      = s.v1_upgrade_badges_vault.amount + upgradeLocked s.v1_upgrade_badge_resource op := by
  cases op with
  | lockAdmin b t =>
    rw [step_lockAdmin]
    by_cases h : b.resource = s.v1_admin_badge_resource <;>
      simp [h, upgradeLocked]
  | lockUpgrade b t =>
    rw [step_lockUpgrade]
    by_cases h : b.resource = s.v1_upgrade_badge_resource <;>
      simp [h, Vault.put, upgradeLocked]
  | getStatus => simp [step, upgradeLocked]

theorem run_admin_badge_resource (s : V1AuthRelinquishment) (ops : List Op) :
    (run s ops).v1_admin_badge_resource = s.v1_admin_badge_resource := by
  induction ops generalizing s with
  | nil => rfl
  | cons op ops ih =>
    calc (run (step s op) ops).v1_admin_badge_resource
        = (step s op).v1_admin_badge_resource := ih (step s op)
      _ = s.v1_admin_badge_resource := step_admin_badge_resource s op

theorem run_upgrade_badge_resource (s : V1AuthRelinquishment) (ops : List Op) :
    (run s ops).v1_upgrade_badge_resource = s.v1_upgrade_badge_resource := by
  induction ops generalizing s with
  | nil => rfl
  | cons op ops ih =>
    calc (run (step s op) ops).v1_upgrade_badge_resource
        = (step s op).v1_upgrade_badge_resource := ih (step s op)
      _ = s.v1_upgrade_badge_resource := step_upgrade_badge_resource s op

theorem run_admin_vault_amount (s : V1AuthRelinquishment) (ops : List Op) :
    (run s ops).v1_admin_badges_vault.amount
      = s.v1_admin_badges_vault.amount
        + (ops.map (adminLocked s.v1_admin_badge_resource)).sum := by
  induction ops generalizing s with
  | nil => simp [run]
  | cons op ops ih =>
    have h1 : (run (step s op) ops).v1_admin_badges_vault.amount
        = (step s op).v1_admin_badges_vault.amount
          + (ops.map (adminLocked (step s op).v1_admin_badge_resource)).sum := ih (step s op)
    have h2 := step_admin_badge_resource s op
    have h3 := step_admin_vault_amount s op
    show (run (step s op) ops).v1_admin_badges_vault.amount = _
    rw [h1, h2, h3]
    simp [add_assoc]

theorem run_upgrade_vault_amount (s : V1AuthRelinquishment) (ops : List Op) :
    (run s ops).v1_upgrade_badges_vault.amount
      = s.v1_upgrade_badges_vault.amount
        + (ops.map (upgradeLocked s.v1_upgrade_badge_resource)).sum := by
  induction ops generalizing s with
  | nil => simp [run]
  | cons op ops ih =>
    have h1 : (run (step s op) ops).v1_upgrade_badges_vault.amount
        = (step s op).v1_upgrade_badges_vault.amount
          + (ops.map (upgradeLocked (step s op).v1_upgrade_badge_resource)).sum := ih (step s op)
    have h2 := step_upgrade_badge_resource s op
    have h3 := step_upgrade_vault_amount s op
    show (run (step s op) ops).v1_upgrade_badges_vault.amount = _
    rw [h1, h2, h3]
    simp [add_assoc]

theorem run_admin_vault_resource (s : V1AuthRelinquishment) (ops : List Op) :
    (run s ops).v1_admin_badges_vault.resource = s.v1_admin_badges_vault.resource := by
  induction ops generalizing s with
  | nil => rfl
  | cons op ops ih =>
    calc (run (step s op) ops).v1_admin_badges_vault.resource
        = (step s op).v1_admin_badges_vault.resource := ih (step s op)
      _ = s.v1_admin_badges_vault.resource := step_admin_vault_resource s op

theorem run_upgrade_vault_resource (s : V1AuthRelinquishment) (ops : List Op) :
    (run s ops).v1_upgrade_badges_vault.resource = s.v1_upgrade_badges_vault.resource := by
  induction ops generalizing s with
  | nil => rfl
  | cons op ops ih =>
    calc (run (step s op) ops).v1_upgrade_badges_vault.resource
        = (step s op).v1_upgrade_badges_vault.resource := ih (step s op)
      _ = s.v1_upgrade_badges_vault.resource := step_upgrade_vault_resource s op

/-- C1: a deposit is accepted if and only if the bucket's resource address
equals the stored expected resource for the targeted kind
(`v1_admin_badge_resource` for `lock_admin_badges`,
`v1_upgrade_badge_resource` for `lock_upgrade_badges`); on mismatch the
call fails (`none`: the `assert_eq!` panic aborts it, so no event is
produced and the bucket is not consumed) and the component state is
unchanged. -/
theorem claim_C1 (s : V1AuthRelinquishment) (b : Bucket) (t : Nat) :
    ((lock_admin_badges s b t).isSome ↔ b.resource = s.v1_admin_badge_resource)
    ∧ ((lock_upgrade_badges s b t).isSome ↔ b.resource = s.v1_upgrade_badge_resource)
    ∧ (b.resource ≠ s.v1_admin_badge_resource →
        lock_admin_badges s b t = none ∧ step s (Op.lockAdmin b t) = s)
    ∧ (b.resource ≠ s.v1_upgrade_badge_resource →
        lock_upgrade_badges s b t = none ∧ step s (Op.lockUpgrade b t) = s) := by
  refine ⟨?_, ?_, fun h => ⟨?_, ?_⟩, fun h => ⟨?_, ?_⟩⟩
  · by_cases h : b.resource = s.v1_admin_badge_resource <;> simp [lock_admin_badges, h]
  · by_cases h : b.resource = s.v1_upgrade_badge_resource <;> simp [lock_upgrade_badges, h]
  · simp [lock_admin_badges, h]
  · rw [step_lockAdmin]; simp [h]
  · simp [lock_upgrade_badges, h]
  · rw [step_lockUpgrade]; simp [h]

theorem claim_C1_witness :
    lock_admin_badges (instantiate 1 2) (Bucket.mk 3 4) 130 = none
      ∧ step (instantiate 1 2) (Op.lockAdmin (Bucket.mk 3 4) 130) = instantiate 1 2 :=
  (claim_C1 (instantiate 1 2) (Bucket.mk 3 4) 130).2.2.1 (by decide)

/-- C4: `get_lock_status` immediately after `instantiate ra rb` reports
zero locked badges of both kinds and echoes the two resource addresses. -/
theorem claim_C4 (ra rb : ResourceAddress) :
    get_lock_status (instantiate ra rb)
      = { admin_badges_locked := 0
          upgrade_badges_locked := 0
          admin_badge_resource := ra
          upgrade_badge_resource := rb } := rfl

/-- C5: the two expected-resource fields are set from the arguments of
`instantiate` and are unchanged by every subsequent sequence of operations
(each `lock_admin_badges`, `lock_upgrade_badges` or `get_lock_status`
invocation, succeeding or failing, on every input and state). -/
theorem claim_C5 (ra rb : ResourceAddress) (s : V1AuthRelinquishment) (ops : List Op) :
    (instantiate ra rb).v1_admin_badge_resource = ra
    ∧ (instantiate ra rb).v1_upgrade_badge_resource = rb
    ∧ (run s ops).v1_admin_badge_resource = s.v1_admin_badge_resource
    ∧ (run s ops).v1_upgrade_badge_resource = s.v1_upgrade_badge_resource :=
  ⟨rfl, rfl, run_admin_badge_resource s ops, run_upgrade_badge_resource s ops⟩

/-- C9: depositing an empty bucket of the expected resource succeeds with
no minimum-amount check: the state (in particular the vault amount) is
unchanged and the event carries `badges_locked = 0` and
`total_locked_now` equal to the unchanged vault amount. -/
theorem claim_C9 (s : V1AuthRelinquishment) (t : Nat) :
    lock_admin_badges s (Bucket.mk s.v1_admin_badge_resource 0) t
      = some (s,
          { badges_locked := 0
            total_locked_now := s.v1_admin_badges_vault.amount
            timestamp := current_time_rounded_to_minutes t })
    ∧ lock_upgrade_badges s (Bucket.mk s.v1_upgrade_badge_resource 0) t
      = some (s,
          { badges_locked := 0
            total_locked_now := s.v1_upgrade_badges_vault.amount
            timestamp := current_time_rounded_to_minutes t }) := by
  constructor <;> simp [lock_admin_badges, lock_upgrade_badges, Vault.put]

/-- C10: in every state reachable from instantiation, each vault's own
pinned resource equals the corresponding expected-resource field, so the
vaults only ever hold the resources fixed at construction. -/
theorem claim_C10 (ra rb : ResourceAddress) (ops : List Op) :
    (run (instantiate ra rb) ops).v1_admin_badges_vault.resource
      = (run (instantiate ra rb) ops).v1_admin_badge_resource
    ∧ (run (instantiate ra rb) ops).v1_upgrade_badges_vault.resource
      = (run (instantiate ra rb) ops).v1_upgrade_badge_resource := by
  rw [run_admin_vault_resource, run_upgrade_vault_resource,
    run_admin_badge_resource, run_upgrade_badge_resource]
  exact ⟨rfl, rfl⟩

theorem sum_adminLocked_lockAdmin (ra : ResourceAddress) (as : List (Bucket × Nat))
    (h : ∀ p ∈ as, (p : Bucket × Nat).1.resource = ra) :
    ((as.map fun p => Op.lockAdmin p.1 p.2).map (adminLocked ra)).sum
      = (as.map fun p => p.1.amount).sum := by
  induction as with
  | nil => rfl
  | cons p ps ih =>
    simp only [List.map_cons, List.sum_cons]
    rw [ih fun q hq => h q (List.mem_cons_of_mem p hq)]
    have hp : p.1.resource = ra := h p (List.mem_cons_self p ps)
    simp [adminLocked, hp]

theorem sum_upgradeLocked_lockUpgrade (rb : ResourceAddress) (bs : List (Bucket × Nat))
    (h : ∀ p ∈ bs, (p : Bucket × Nat).1.resource = rb) :
    ((bs.map fun p => Op.lockUpgrade p.1 p.2).map (upgradeLocked rb)).sum
      = (bs.map fun p => p.1.amount).sum := by
  induction bs with
  | nil => rfl
  | cons p ps ih =>
    simp only [List.map_cons, List.sum_cons]
    rw [ih fun q hq => h q (List.mem_cons_of_mem p hq)]
    have hp : p.1.resource = rb := h p (List.mem_cons_self p ps)
    simp [upgradeLocked, hp]

/-- C2: starting from a fresh component, after any finite sequence of
matching admin-badge deposits (each bucket carrying resource `ra`, at
arbitrary times), `get_lock_status` reports `admin_badges_locked` equal to
the sum of the deposited amounts; independently, the same holds for
upgrade-badge deposits and `upgrade_badges_locked`.  The right-hand sides
are order-independent sums, so the equality holds for every order of
application. -/
theorem claim_C2 (ra rb : ResourceAddress) (as bs : List (Bucket × Nat))
    (hA : ∀ p ∈ as, (p : Bucket × Nat).1.resource = ra)
    (hB : ∀ p ∈ bs, (p : Bucket × Nat).1.resource = rb) :
    (get_lock_status (run (instantiate ra rb)
        (as.map fun p => Op.lockAdmin p.1 p.2))).admin_badges_locked
      = (as.map fun p => p.1.amount).sum
    ∧ (get_lock_status (run (instantiate ra rb)
        (bs.map fun p => Op.lockUpgrade p.1 p.2))).upgrade_badges_locked
      = (bs.map fun p => p.1.amount).sum := by
  constructor
  · simp only [get_lock_status]
    rw [run_admin_vault_amount]
    simp only [instantiate, Vault.new]
    rw [sum_adminLocked_lockAdmin ra as hA]
    simp
  · simp only [get_lock_status]
    rw [run_upgrade_vault_amount]
    simp only [instantiate, Vault.new]
    rw [sum_upgradeLocked_lockUpgrade rb bs hB]
    simp

theorem claim_C2_witness :
    (get_lock_status (run (instantiate 1 2)
        ([(Bucket.mk 1 5, 60), (Bucket.mk 1 7, 120)].map
          fun p => Op.lockAdmin p.1 p.2))).admin_badges_locked
      = ([(Bucket.mk 1 5, 60), (Bucket.mk 1 7, 120)].map fun p => p.1.amount).sum
    ∧ (get_lock_status (run (instantiate 1 2)
        ([(Bucket.mk 2 3, 0)].map fun p => Op.lockUpgrade p.1 p.2))).upgrade_badges_locked
      = ([(Bucket.mk 2 3, 0)].map fun p => p.1.amount).sum :=
  claim_C2 1 2 [(Bucket.mk 1 5, 60), (Bucket.mk 1 7, 120)] [(Bucket.mk 2 3, 0)]
    (by decide) (by decide)

/-- C3: over any sequence of operations (any mix of the three methods, on
any inputs, succeeding or failing), neither vault's amount ever decreases;
the hypothesis records that real buckets never hold a negative amount. -/
theorem claim_C3 (s : V1AuthRelinquishment) (ops : List Op)
    (h : ∀ op ∈ ops, opBucketNonneg op = true) :
    s.v1_admin_badges_vault.amount ≤ (run s ops).v1_admin_badges_vault.amount
    ∧ s.v1_upgrade_badges_vault.amount ≤ (run s ops).v1_upgrade_badges_vault.amount := by
  constructor
  · rw [run_admin_vault_amount]
    refine le_add_of_nonneg_right (List.sum_nonneg ?_)
    intro x hx
    obtain ⟨op, hop, rfl⟩ := List.mem_map.mp hx
    have hop2 := h op hop
    cases op with
    | lockAdmin b t =>
      simp only [opBucketNonneg, decide_eq_true_eq] at hop2
      simp only [adminLocked]
      split
      · exact hop2
      · exact le_refl 0
    | lockUpgrade b t => simp [adminLocked]
    | getStatus => simp [adminLocked]
  · rw [run_upgrade_vault_amount]
    refine le_add_of_nonneg_right (List.sum_nonneg ?_)
    intro x hx
    obtain ⟨op, hop, rfl⟩ := List.mem_map.mp hx
    have hop2 := h op hop
    cases op with
    | lockAdmin b t => simp [upgradeLocked]
    | lockUpgrade b t =>
      simp only [opBucketNonneg, decide_eq_true_eq] at hop2
      simp only [upgradeLocked]
      split
      · exact hop2
      · exact le_refl 0
    | getStatus => simp [upgradeLocked]

theorem claim_C3_witness :
    (instantiate 1 2).v1_admin_badges_vault.amount
      ≤ (run (instantiate 1 2)
          [Op.lockAdmin (Bucket.mk 1 5) 60, Op.lockUpgrade (Bucket.mk 2 3) 60,
            Op.lockAdmin (Bucket.mk 9 4) 60, Op.getStatus]).v1_admin_badges_vault.amount
    ∧ (instantiate 1 2).v1_upgrade_badges_vault.amount
      ≤ (run (instantiate 1 2)
          [Op.lockAdmin (Bucket.mk 1 5) 60, Op.lockUpgrade (Bucket.mk 2 3) 60,
            Op.lockAdmin (Bucket.mk 9 4) 60, Op.getStatus]).v1_upgrade_badges_vault.amount :=
  claim_C3 (instantiate 1 2)
    [Op.lockAdmin (Bucket.mk 1 5) 60, Op.lockUpgrade (Bucket.mk 2 3) 60,
      Op.lockAdmin (Bucket.mk 9 4) 60, Op.getStatus]
    (by decide)

/-- C6: a successful deposit produces exactly one event (the embedding
returns a single event value), whose `badges_locked` field equals the
deposited bucket's amount and whose `total_locked_now` field equals the
targeted vault's amount immediately after the merge. -/
theorem claim_C6 (s : V1AuthRelinquishment) (b : Bucket) (t : Nat) :
    (∀ s2 e, lock_admin_badges s b t = some (s2, e) →
        e.badges_locked = b.amount
        ∧ e.total_locked_now = s2.v1_admin_badges_vault.amount)
    ∧ (∀ s2 e, lock_upgrade_badges s b t = some (s2, e) →
        e.badges_locked = b.amount
        ∧ e.total_locked_now = s2.v1_upgrade_badges_vault.amount) := by
  constructor
  · intro s2 e he
    simp only [lock_admin_badges] at he
    split at he
    · simp only [Option.some.injEq, Prod.mk.injEq] at he
      obtain ⟨hs, hev⟩ := he
      subst hs
      subst hev
      exact ⟨rfl, rfl⟩
    · simp at he
  · intro s2 e he
    simp only [lock_upgrade_badges] at he
    split at he
    · simp only [Option.some.injEq, Prod.mk.injEq] at he
      obtain ⟨hs, hev⟩ := he
      subst hs
      subst hev
      exact ⟨rfl, rfl⟩
    · simp at he

theorem claim_C6_witness :
    (V1AdminBadgesLockedEvent.mk 5 5 120).badges_locked = (Bucket.mk 1 5).amount
    ∧ (V1AdminBadgesLockedEvent.mk 5 5 120).total_locked_now
        = (V1AuthRelinquishment.mk (Vault.mk 1 5) (Vault.mk 2 0) 1 2).v1_admin_badges_vault.amount :=
  (claim_C6 (instantiate 1 2) (Bucket.mk 1 5) 130).1
    (V1AuthRelinquishment.mk (Vault.mk 1 5) (Vault.mk 2 0) 1 2)
    (V1AdminBadgesLockedEvent.mk 5 5 120) (by decide)

/-- C7: the timestamp of every emitted event is the host clock rounded to
whole-minute granularity (so it always has zero seconds within its
minute); the rounding function is modelled from the spec since
`Clock::current_time_rounded_to_minutes` is host library code. -/
theorem claim_C7 (s : V1AuthRelinquishment) (b : Bucket) (t : Nat) :
    (∀ s2 e, lock_admin_badges s b t = some (s2, e) →
        e.timestamp = current_time_rounded_to_minutes t ∧ e.timestamp % 60 = 0)
    ∧ (∀ s2 e, lock_upgrade_badges s b t = some (s2, e) →
        e.timestamp = current_time_rounded_to_minutes t ∧ e.timestamp % 60 = 0) := by
  constructor
  · intro s2 e he
    simp only [lock_admin_badges] at he
    split at he
    · simp only [Option.some.injEq, Prod.mk.injEq] at he
      obtain ⟨hs, hev⟩ := he
      subst hev
      exact ⟨rfl, Nat.mul_mod_left (t / 60) 60⟩
    · simp at he
  · intro s2 e he
    simp only [lock_upgrade_badges] at he
    split at he
    · simp only [Option.some.injEq, Prod.mk.injEq] at he
      obtain ⟨hs, hev⟩ := he
      subst hev
      exact ⟨rfl, Nat.mul_mod_left (t / 60) 60⟩
    · simp at he

theorem claim_C7_witness :
    (V1UpgradeBadgeLockedEvent.mk 3 3 120).timestamp = current_time_rounded_to_minutes 155
    ∧ (V1UpgradeBadgeLockedEvent.mk 3 3 120).timestamp % 60 = 0 :=
  (claim_C7 (instantiate 1 2) (Bucket.mk 2 3) 155).2
    (V1AuthRelinquishment.mk (Vault.mk 1 0) (Vault.mk 2 3) 1 2)
    (V1UpgradeBadgeLockedEvent.mk 3 3 120) (by decide)

/-- State with the admin and upgrade sides exchanged; used to state the
symmetry of the two lock routines. -/
def swapState (s : V1AuthRelinquishment) : V1AuthRelinquishment :=
  { v1_admin_badges_vault := s.v1_upgrade_badges_vault
    v1_upgrade_badges_vault := s.v1_admin_badges_vault
    v1_admin_badge_resource := s.v1_upgrade_badge_resource
    v1_upgrade_badge_resource := s.v1_admin_badge_resource }

/-- The two event structs carry identical fields; this renames one into
the other. -/
def adminEventAsUpgrade (e : V1AdminBadgesLockedEvent) : V1UpgradeBadgeLockedEvent :=
  { badges_locked := e.badges_locked
    total_locked_now := e.total_locked_now
    timestamp := e.timestamp }

/-- C8: `lock_admin_badges` and `lock_upgrade_badges` are structurally
identical: on every state, bucket and time, `lock_upgrade_badges` is
exactly `lock_admin_badges` run on the side-swapped state, with the
resulting state swapped back and the event renamed — so the two routines
differ only in which expected-resource field they compare against, which
vault they merge into, and which event type they emit. -/
theorem claim_C8 (s : V1AuthRelinquishment) (b : Bucket) (t : Nat) :
    lock_upgrade_badges s b t
      = (lock_admin_badges (swapState s) b t).map
          (fun p => (swapState p.1, adminEventAsUpgrade p.2)) := by
  by_cases h : b.resource = s.v1_upgrade_badge_resource <;>
    simp [lock_upgrade_badges, lock_admin_badges, swapState, adminEventAsUpgrade,
      Vault.put, h]

end RnsV1BadgeLockers
